import Mathlib

/-!
Verification development for the WitnessChain location-proof plugin.

The TypeScript sources are shallowly embedded: JS numbers are modelled as
rationals (the specification states that all scoring arithmetic is total over
the real numbers and clamped at the boundaries), JS objects used as open
diagnostic maps are modelled as insertion-ordered association lists with
JS assignment semantics (assigning to an existing key overwrites its value in
place, otherwise appends), optional / possibly-undefined fields are `Option`,
and code that throws is modelled with `Except`.  The two ambient capabilities
the code consults — the wall clock `Date.now()` and the date parser
`new Date(s).getTime()` — are collected in an explicit `Env` record; the
external ECDSA primitive `ethers.verifyMessage` is passed to the verifier as a
`recover` function returning `Except` (it throws on malformed signatures).
-/

/-- A JS runtime value as far as the plugin inspects one: the verifier performs
a `typeof x === 'boolean'` test on `consolidated.KnowLoc`, so that field can
hold a non-boolean at runtime even though the TS declaration says `boolean`. -/
inductive JsVal where
  | undef
  | bool (b : Bool)
  | num (q : ℚ)
  | str (s : String)
  deriving DecidableEq, Repr

/-- True exactly when `typeof v === 'boolean'` holds in JS (src/verify.ts line 139). -/
def isBoolJs : JsVal → Bool
  | .bool _ => true
  | _ => false

/-- A value stored in a `details` diagnostic map.  The code stores strings,
numbers, booleans and `\x7b expected, recovered \x7d` pair objects. -/
inductive DetailValue where
  | bool (b : Bool)
  | num (q : ℚ)
  | str (s : String)
  | pair (expected recovered : String)
  deriving DecidableEq, Repr

/-- The open diagnostic mapping `details : Record<string, unknown>`:
an insertion-ordered list of key/value pairs. -/
abbrev Details := List (String × DetailValue)

/-- JS property assignment `d[k] = v`: if the key is present its value is
replaced in place (insertion order kept), otherwise the pair is appended. -/
def dset (d : Details) (k : String) (v : DetailValue) : Details :=
  if d.any (fun p => p.1 == k) then
    d.map (fun p => if p.1 == k then (k, v) else p)
  else
    d ++ [(k, v)]

/-- JS property read `d[k]` (first occurrence; keys are unique by construction). -/
def dlookup (d : Details) (k : String) : Option DetailValue :=
  (d.find? (fun p => p.1 == k)).map (fun p => p.2)

theorem dlookup_nil (k : String) : dlookup [] k = none := rfl

theorem find_map_replace (k : String) (v : DetailValue) :
    ∀ d : Details, d.any (fun p => p.1 == k) = true →
      (d.map (fun p => if p.1 == k then (k, v) else p)).find? (fun p => p.1 == k) =
        some (k, v) := by
  intro d
  induction d with
  | nil => intro h; simp at h
  | cons p t ih =>
    intro h
    by_cases hpk : p.1 = k
    · have hb : (p.1 == k) = true := by simp [hpk]
      simp only [List.map_cons, List.find?_cons, hb, reduceIte, beq_self_eq_true]
    · have hb : (p.1 == k) = false := by simp [hpk]
      simp only [List.any_cons, hb, Bool.false_or] at h
      simp only [List.map_cons, List.find?_cons, hb, Bool.false_eq_true, reduceIte, if_false]
      exact ih h

theorem find_append_new (k : String) (v : DetailValue) :
    ∀ d : Details, d.any (fun p => p.1 == k) = false →
      (d ++ [(k, v)]).find? (fun p => p.1 == k) = some (k, v) := by
  intro d
  induction d with
  | nil =>
    intro _
    simp only [List.nil_append, List.find?_cons, beq_self_eq_true]
  | cons p t ih =>
    intro h
    simp only [List.any_cons, Bool.or_eq_false_iff] at h
    simp only [List.cons_append, List.find?_cons, h.1]
    exact ih h.2

theorem dlookup_dset_self (d : Details) (k : String) (v : DetailValue) :
    dlookup (dset d k v) k = some v := by
  unfold dset dlookup
  cases h : d.any (fun p => p.1 == k) with
  | true =>
    simp only [reduceIte, find_map_replace k v d h]
    rfl
  | false =>
    simp only [Bool.false_eq_true, reduceIte, find_append_new k v d h]
    rfl

theorem find_map_replace_ne (k k' : String) (v : DetailValue) (hne : k' ≠ k) :
    ∀ d : Details,
      (d.map (fun p => if p.1 == k then (k, v) else p)).find? (fun p => p.1 == k') =
        d.find? (fun p => p.1 == k') := by
  intro d
  induction d with
  | nil => rfl
  | cons p t ih =>
    by_cases hpk : p.1 = k
    · have hb : (p.1 == k) = true := by simp [hpk]
      have h1 : (k == k') = false := by simp [Ne.symm hne]
      have h2 : (p.1 == k') = false := by simp [hpk, Ne.symm hne]
      simp only [List.map_cons, List.find?_cons, hb, reduceIte, h1, h2]
      exact ih
    · have hb : (p.1 == k) = false := by simp [hpk]
      by_cases hpk' : p.1 = k'
      · have hb' : (p.1 == k') = true := by simp [hpk']
        simp only [List.map_cons, List.find?_cons, hb, Bool.false_eq_true, reduceIte,
          if_false, hb']
      · have hb' : (p.1 == k') = false := by simp [hpk']
        simp only [List.map_cons, List.find?_cons, hb, Bool.false_eq_true, reduceIte,
          if_false, hb']
        exact ih

theorem find_append_ne (k k' : String) (v : DetailValue) (hne : k' ≠ k) :
    ∀ d : Details,
      (d ++ [(k, v)]).find? (fun p => p.1 == k') = d.find? (fun p => p.1 == k') := by
  intro d
  induction d with
  | nil =>
    have h1 : (k == k') = false := by simp [Ne.symm hne]
    simp only [List.nil_append, List.find?_cons, h1, List.find?_nil]
  | cons p t ih =>
    by_cases hpk' : p.1 = k'
    · have hb' : (p.1 == k') = true := by simp [hpk']
      simp only [List.cons_append, List.find?_cons, hb']
    · have hb' : (p.1 == k') = false := by simp [hpk']
      simp only [List.cons_append, List.find?_cons, hb']
      exact ih

theorem dlookup_dset_ne (d : Details) (k k' : String) (v : DetailValue) (hne : k' ≠ k) :
    dlookup (dset d k v) k' = dlookup d k' := by
  unfold dset dlookup
  by_cases h : d.any (fun p => p.1 == k) = true
  · rw [if_pos h, find_map_replace_ne k k' v hne d]
  · rw [if_neg h, find_append_ne k k' v hne d]

theorem dlookup_dset_cases (d : Details) (k k1 : String) (v1 v : DetailValue)
    (h : dlookup (dset d k1 v1) k = some v) : k = k1 ∨ dlookup d k = some v := by
  by_cases hk : k = k1
  · exact Or.inl hk
  · exact Or.inr (by rwa [dlookup_dset_ne d k1 k v1 hk] at h)

theorem dlookup_dset_isSome (d : Details) (k k1 : String) (v : DetailValue)
    (h : (dlookup d k).isSome) : (dlookup (dset d k1 v) k).isSome := by
  by_cases hk : k = k1
  · subst hk; rw [dlookup_dset_self]; rfl
  · rwa [dlookup_dset_ne d k1 k v hk]

/-- A latitude/longitude/radius triple as used in `claims` and
`challenger_claims` (src/types.ts lines 19-30). -/
structure LocationClaims where
  latitude : ℚ
  longitude : ℚ
  radius : ℚ
  deriving DecidableEq, Repr

/-- The `result` sub-record of a challenge (src/types.ts lines 32-36). -/
structure ChallengeOutcome where
  challenge_succeeded : Bool
  ping_delay : ℚ
  deriving DecidableEq, Repr

/-- The `consolidated_result` multi-source corroboration record
(src/types.ts lines 43-51).  `KnowLoc` is kept as a raw `JsVal` because the
verifier checks its runtime type; the three named geolocation sources are
optional in the TS type. -/
structure ConsolidatedResult where
  KnowLoc : JsVal
  KnowLocUncertainty : ℚ
  ipapiCo : Option Bool
  ipregistry : Option Bool
  maxmind : Option Bool
  verified : Bool
  deriving DecidableEq, Repr

/-- A WitnessChain challenge result from the API (src/types.ts lines 12-52). -/
structure WitnessChainChallengeResult where
  id : String
  challenge_start_time : String
  challenger : String
  challenger_id : String
  challenger_claims : LocationClaims
  claims : LocationClaims
  result : ChallengeOutcome
  message : String
  signature : String
  consolidated_result : ConsolidatedResult
  deriving DecidableEq, Repr

/-- The `data` payload of `RawSignals` as produced by the collector
(src/collect.ts lines 133-141 and 148-157). -/
structure RawData where
  challengeResult : Option WitnessChainChallengeResult
  proverClaims : Option LocationClaims
  proverId : Option String
  deriving DecidableEq, Repr

/-- `RawSignals`: the transport-neutral bundle handed from collection to
stamp creation. -/
structure RawSignals where
  plugin : String
  timestamp : ℚ
  data : RawData
  deriving DecidableEq, Repr

/-- A stamp or claim `location`: either a GeoJSON-style object carrying a
`coordinates` member, or a bare string identifier (the test suite uses an h3
cell string).  The code only ever tests
`typeof loc === 'object' && 'coordinates' in loc` on it. -/
inductive Location where
  | geo (type_ : String) (coordinates : List ℚ)
  | str (s : String)
  deriving DecidableEq, Repr

/-- True when the location is an object containing a `coordinates` member,
i.e. when `typeof loc === 'object' && 'coordinates' in loc` holds. -/
def isCoordObj : Location → Bool
  | .geo _ _ => true
  | .str _ => false

/-- JS truthiness of a location value: objects are truthy, a string is falsy
exactly when it is empty (used by `!stamp.location`). -/
def locTruthy : Location → Bool
  | .geo _ _ => true
  | .str s => !s.isEmpty

/-- A half-open time window in seconds. `end` is a Lean keyword so the field
is spelled `end_`. -/
structure TimeWindow where
  start : ℚ
  end_ : ℚ
  deriving DecidableEq, Repr

/-- The flattened `signals` mapping of a stamp.  `createWitnessChainStamp`
populates the flattened fields; the full `challengeResult` is optional (tests
re-attach it for signature verification). -/
structure StampSignals where
  challengeResult : Option WitnessChainChallengeResult
  challengeId : Option String
  challenger : Option String
  challengerId : Option String
  challengerClaims : Option LocationClaims
  proverClaims : Option LocationClaims
  challengeSucceeded : Option Bool
  pingDelayMicroseconds : Option ℚ
  consolidatedResult : Option ConsolidatedResult
  knowLocUncertaintyKm : Option ℚ
  deriving DecidableEq, Repr

/-- An unsigned location stamp (the SDK's `UnsignedLocationStamp` as
instantiated by this plugin; it carries no signature sequence). -/
structure UnsignedLocationStamp where
  lpVersion : String
  locationType : String
  location : Location
  srs : String
  temporalFootprint : TimeWindow
  plugin : String
  pluginVersion : String
  signals : StampSignals
  deriving DecidableEq, Repr

/-- A signer identity descriptor `\x7b scheme, value \x7d`. -/
structure SignerId where
  scheme : String
  value : String
  deriving DecidableEq, Repr

/-- One wrapper signature record (field order as built in src/index.ts
lines 87-92). -/
structure SignatureRecord where
  signer : SignerId
  algorithm : String
  value : String
  timestamp : ℚ
  deriving DecidableEq, Repr

/-- A signed location stamp: the unsigned stamp plus the ordered wrapper
signature sequence. -/
structure LocationStamp extends UnsignedLocationStamp where
  signatures : List SignatureRecord
  deriving DecidableEq, Repr

/-- The externally supplied signing capability (`StampSigner`): identity,
algorithm tag, and an opaque string-to-string `sign` function. -/
structure StampSigner where
  algorithm : String
  signer : SignerId
  sign : String → String

/-- A location claim as consumed by the evaluator (only the fields the
plugin reads: `location`, `radius`, `time`). -/
structure LocationClaim where
  location : Location
  radius : ℚ
  time : TimeWindow
  deriving DecidableEq, Repr

/-- The result of verifying a stamp. -/
structure StampVerificationResult where
  valid : Bool
  signaturesValid : Bool
  structureValid : Bool
  signalsConsistent : Bool
  details : Details
  deriving DecidableEq, Repr

/-- The credibility vector produced by the evaluator. -/
structure CredibilityVector where
  supportsClaim : Bool
  score : ℚ
  spatial : ℚ
  temporal : ℚ
  details : Details
  deriving DecidableEq, Repr

/-- The ambient JS runtime capabilities the plugin code consults:
`Date.now()` (milliseconds) and `new Date(s).getTime()` (milliseconds). -/
structure Env where
  now : ℚ
  parseDateMs : String → ℚ

/-- Serialization of a rational (JS number) for the canonical encoding. -/
def encQ (q : ℚ) : String := toString q

/-- Serialization of an optional rational (`undefined` fields are omitted by
`JSON.stringify`; here they are encoded as a fixed tag). -/
def encOptQ : Option ℚ → String
  | none => "_"
  | some q => encQ q

/-- Serialization of an optional string. -/
def encOptS : Option String → String
  | none => "_"
  | some s => s

/-- Serialization of a boolean. -/
def encBool (b : Bool) : String := toString b

/-- Serialization of an optional boolean. -/
def encOptB : Option Bool → String
  | none => "_"
  | some b => encBool b

/-- Serialization of a raw JS value. -/
def encJsVal : JsVal → String
  | .undef => "undefined"
  | .bool b => encBool b
  | .num q => encQ q
  | .str s => s

/-- Serialization of a latitude/longitude/radius triple. -/
def encClaims (c : LocationClaims) : String :=
  "(" ++ encQ c.latitude ++ "," ++ encQ c.longitude ++ "," ++ encQ c.radius ++ ")"

/-- Serialization of an optional claims triple. -/
def encOptClaims : Option LocationClaims → String
  | none => "_"
  | some c => encClaims c

/-- Serialization of a challenge outcome. -/
def encOutcome (r : ChallengeOutcome) : String :=
  "(" ++ encBool r.challenge_succeeded ++ "," ++ encQ r.ping_delay ++ ")"

/-- Serialization of a consolidated corroboration record. -/
def encConsolidated (c : ConsolidatedResult) : String :=
  "(" ++ encJsVal c.KnowLoc ++ "," ++ encQ c.KnowLocUncertainty ++ "," ++
    encOptB c.ipapiCo ++ "," ++ encOptB c.ipregistry ++ "," ++ encOptB c.maxmind ++ "," ++
    encBool c.verified ++ ")"

/-- Serialization of an optional consolidated record. -/
def encOptConsolidated : Option ConsolidatedResult → String
  | none => "_"
  | some c => encConsolidated c

/-- Serialization of a full challenge result. -/
def encChallengeResult (r : WitnessChainChallengeResult) : String :=
  "(" ++ String.intercalate ","
    [r.id, r.challenge_start_time, r.challenger, r.challenger_id,
     encClaims r.challenger_claims, encClaims r.claims, encOutcome r.result,
     r.message, r.signature, encConsolidated r.consolidated_result] ++ ")"

/-- Serialization of an optional challenge result. -/
def encOptChallengeResult : Option WitnessChainChallengeResult → String
  | none => "_"
  | some r => encChallengeResult r

/-- Serialization of the flattened signals mapping. -/
def encSignals (s : StampSignals) : String :=
  "(" ++ String.intercalate ","
    [encOptChallengeResult s.challengeResult, encOptS s.challengeId,
     encOptS s.challenger, encOptS s.challengerId, encOptClaims s.challengerClaims,
     encOptClaims s.proverClaims, encOptB s.challengeSucceeded,
     encOptQ s.pingDelayMicroseconds, encOptConsolidated s.consolidatedResult,
     encOptQ s.knowLocUncertaintyKm] ++ ")"

/-- Serialization of a location. -/
def encLocation : Location → String
  | .geo t cs => "geo(" ++ t ++ ",[" ++ String.intercalate "," (cs.map encQ) ++ "])"
  | .str s => "str(" ++ s ++ ")"

/-- Serialization of a time window. -/
def encWindow (w : TimeWindow) : String :=
  "[" ++ encQ w.start ++ "," ++ encQ w.end_ ++ ")"

/-- Models `JSON.stringify` on an unsigned stamp: a fixed, deterministic,
order-stable serialization of every field.  The exact byte format of the host
JSON encoder is not load-bearing for any property proved here — only that the
serialization is a pure function of the record. -/
def stringifyUnsigned (u : UnsignedLocationStamp) : String :=
  String.intercalate "|"
    [u.lpVersion, u.locationType, encLocation u.location, u.srs,
     encWindow u.temporalFootprint, u.plugin, u.pluginVersion, encSignals u.signals]

/-- Plugin name constant (src/create.ts line 12). -/
def PLUGIN_NAME : String := "witnesschain"

/-- Plugin version constant (src/create.ts line 13). -/
def PLUGIN_VERSION : String := "0.1.0"

/-- `signalsFromChallengeResult` (src/collect.ts lines 148-157): create
`RawSignals` from a pre-fetched challenge result.  The timestamp is
`Math.floor(new Date(result.challenge_start_time).getTime() / 1000)`; the date
parser is an ambient runtime capability, taken from `Env`. -/
def signalsFromChallengeResult (env : Env) (result : WitnessChainChallengeResult) :
    RawSignals :=
  { plugin := "witnesschain"
    timestamp := ((⌊env.parseDateMs result.challenge_start_time / 1000⌋ : ℤ) : ℚ)
    data :=
      { challengeResult := some result
        proverClaims := some result.claims
        proverId := none } }

/-- `createWitnessChainStamp` (src/create.ts lines 20-65): build an
`UnsignedLocationStamp` from `RawSignals`.  Throws (here: `Except.error`) when
the bundle lacks `challengeResult`.  The challenge duration is
`max(10, ceil(ping_delay / 1_000_000) + 5)` seconds. -/
def createWitnessChainStamp (env : Env) (signals : RawSignals) :
    Except String UnsignedLocationStamp :=
  match signals.data.challengeResult with
  | none => .error "WitnessChain signals must include challengeResult"
  | some challengeResult =>
    let startTime : ℚ :=
      ((⌊env.parseDateMs challengeResult.challenge_start_time / 1000⌋ : ℤ) : ℚ)
    let durationSeconds : ℚ :=
      max 10 (((⌈challengeResult.result.ping_delay / 1000000⌉ : ℤ) : ℚ) + 5)
    .ok
      { lpVersion := "0.2"
        locationType := "geojson-point"
        location := .geo "Point"
          [challengeResult.claims.longitude, challengeResult.claims.latitude]
        srs := "EPSG:4326"
        temporalFootprint := { start := startTime, end_ := startTime + durationSeconds }
        plugin := PLUGIN_NAME
        pluginVersion := PLUGIN_VERSION
        signals :=
          { challengeResult := none
            challengeId := some challengeResult.id
            challenger := some challengeResult.challenger
            challengerId := some challengeResult.challenger_id
            challengerClaims := some challengeResult.challenger_claims
            proverClaims := some challengeResult.claims
            challengeSucceeded := some challengeResult.result.challenge_succeeded
            pingDelayMicroseconds := some challengeResult.result.ping_delay
            consolidatedResult := some challengeResult.consolidated_result
            knowLocUncertaintyKm :=
              some challengeResult.consolidated_result.KnowLocUncertainty } }

/-- The signature sequence an `UnsignedLocationStamp` carries before signing:
the type has no `signatures` field, so the prior sequence is empty. -/
def priorSignatures (_ : UnsignedLocationStamp) : List SignatureRecord := []

/-- `WitnessChainPlugin.sign` (src/index.ts lines 79-95): serialize the stamp,
invoke the external signer on that exact string, and return a new
`LocationStamp` consisting of the input stamp's fields plus a single wrapper
signature record stamped with `Math.floor(Date.now() / 1000)`. -/
def WitnessChainPlugin.sign (env : Env) (stamp : UnsignedLocationStamp)
    (signer : StampSigner) : LocationStamp :=
  let data := stringifyUnsigned stamp
  let sigValue := signer.sign data
  let now : ℚ := ((⌊env.now / 1000⌋ : ℤ) : ℚ)
  { toUnsignedLocationStamp := stamp
    signatures :=
      [{ signer := signer.signer
         algorithm := signer.algorithm
         value := sigValue
         timestamp := now }] }

/-- `temporalOverlap` (src/evaluate.ts lines 35-45): overlap ratio between two
time intervals — `overlap / min(durations)` when the intervals overlap and the
shorter duration is positive, otherwise 0. -/
def temporalOverlap (a b : TimeWindow) : ℚ :=
  let overlapStart := max a.start b.start
  let overlapEnd := min a.end_ b.end_
  if overlapEnd ≤ overlapStart then 0
  else
    let overlap := overlapEnd - overlapStart
    let shorter := min (a.end_ - a.start) (b.end_ - b.start)
    if 0 < shorter then overlap / shorter else 0

/-- The base spatial score (src/evaluate.ts lines 109-114): linear falloff to
the edge of the effective radius, then `max(0, 1 - d/(3r))` beyond it. -/
def spatialBase (distance effectiveRadius : ℚ) : ℚ :=
  if distance ≤ effectiveRadius then 1 - distance / effectiveRadius
  else max 0 (1 - distance / (effectiveRadius * 3))

/-- The three named geolocation sources inspected by the bonus loop
(src/evaluate.ts line 125). -/
def consolidatedSources (c : ConsolidatedResult) : List (Option Bool) :=
  [c.ipapiCo, c.ipregistry, c.maxmind]

/-- The spatial-scoring section of `evaluateWitnessChainStamp`
(src/evaluate.ts lines 97-151): distance diagnostic, effective radius from
claim radius plus KnowLoc uncertainty (default 50 km), base spatial score, and
the three independently capped corroboration bonuses.  Returns the
bonus-adjusted spatial score together with the accumulated details. -/
def spatialScoring (distance : ℚ) (stamp : LocationStamp) (claim : LocationClaim) :
    ℚ × Details :=
  let d0 := dset [] "distanceMeters" (.num ((round distance : ℤ) : ℚ))
  let knowLocUncertaintyKm := stamp.signals.knowLocUncertaintyKm.getD 50
  let uncertaintyMeters := knowLocUncertaintyKm * 1000
  let effectiveRadius := claim.radius + uncertaintyMeters
  let d1 := dset d0 "effectiveRadiusMeters" (.num effectiveRadius)
  let d2 := dset d1 "knowLocUncertaintyKm" (.num knowLocUncertaintyKm)
  let spatial0 := spatialBase distance effectiveRadius
  match stamp.signals.consolidatedResult with
  | none => (spatial0, d2)
  | some consolidated =>
    let ipSourcesTotal := ((consolidatedSources consolidated).filter
      (fun o => o.isSome)).length
    let ipSourcesAgreed := ((consolidatedSources consolidated).filter
      (fun o => o == some true)).length
    let p1 :=
      if 0 < ipSourcesTotal then
        (min 1 (spatial0 + (ipSourcesAgreed : ℚ) / (ipSourcesTotal : ℚ) * 0.1),
         dset (dset d2 "ipSourcesAgreed" (.num (ipSourcesAgreed : ℚ)))
           "ipSourcesTotal" (.num (ipSourcesTotal : ℚ)))
      else (spatial0, d2)
    let p2 :=
      if consolidated.KnowLoc = JsVal.bool true then
        (min 1 (p1.1 + 0.05), dset p1.2 "knowLocVerified" (.bool true))
      else p1
    if consolidated.verified = true then
      (min 1 (p2.1 + 0.05), dset p2.2 "consolidatedVerified" (.bool true))
    else p2

/-- The bonus-adjusted spatial component of the evaluator. -/
def spatialAdjusted (distance : ℚ) (stamp : LocationStamp) (claim : LocationClaim) : ℚ :=
  (spatialScoring distance stamp claim).1

/-- The challenge-failure penalty (src/evaluate.ts lines 157-162). -/
def challengePenalty (stamp : LocationStamp) : ℚ :=
  if stamp.signals.challengeSucceeded = some false then 0.3 else 0

/-- `evaluateWitnessChainStamp` (src/evaluate.ts lines 55-171).  The
great-circle distance between the extracted stamp and claim coordinates —
computed in the source by the floating-point transcendental
`haversineDistance` — enters as the parameter `distance`; every property
proved below holds for all values of that parameter, hence in particular for
the haversine values (which are nonnegative reals).  All arithmetic downstream
of the distance is exact. -/
def evaluateWitnessChainStamp (distance : ℚ) (stamp : LocationStamp)
    (claim : LocationClaim) : CredibilityVector :=
  match stamp.location with
  | .str _ =>
    { supportsClaim := false, score := 0, spatial := 0, temporal := 0,
      details := [("error", .str "Cannot extract coordinates from stamp location")] }
  | .geo _ _ =>
    match claim.location with
    | .str _ =>
      { supportsClaim := false, score := 0, spatial := 0, temporal := 0,
        details := [("error", .str "Cannot extract coordinates from claim location")] }
    | .geo _ _ =>
      let sp := spatialScoring distance stamp claim
      let temporal := temporalOverlap stamp.temporalFootprint claim.time
      let d1 := dset sp.2 "temporalOverlap" (.num temporal)
      let pen :=
        if stamp.signals.challengeSucceeded = some false then
          ((0.3 : ℚ), dset d1 "challengeFailedPenalty" (.num 0.3))
        else ((0 : ℚ), d1)
      let rawScore := sp.1 * 0.65 + temporal * 0.35 - pen.1
      let score := max 0 (min 1 rawScore)
      let supportsClaim :=
        decide (0.3 < score) && decide (0.1 < sp.1) && decide (0 < temporal)
      { supportsClaim := supportsClaim, score := score, spatial := sp.1,
        temporal := temporal, details := pen.2 }

/-- JS truthiness of an optional string (`!x` is true for `undefined` and for
the empty string). -/
def strFalsy : Option String → Bool
  | none => true
  | some s => s.isEmpty

/-- The structure-check section of `verifyWitnessChainStamp` (src/verify.ts
lines 30-58): lp version, plugin name, presence of location and temporal
footprint, and — when the embedded challenge result is absent — presence of
the flattened key challenge fields. -/
def structurePhase (stamp : LocationStamp) : Bool × Details :=
  let p1 :=
    if stamp.lpVersion ≠ "0.2" then
      (false, dset [] "lpVersionError" (.str ("Expected 0.2, got " ++ stamp.lpVersion)))
    else (true, ([] : Details))
  let p2 :=
    if stamp.plugin ≠ "witnesschain" then
      (false, dset p1.2 "pluginMismatch"
        (.str ("Expected witnesschain, got " ++ stamp.plugin)))
    else p1
  let p3 :=
    if !locTruthy stamp.location then
      (false, dset p2.2 "missingFields" (.bool true))
    else p2
  match stamp.signals.challengeResult with
  | some _ => p3
  | none =>
    if strFalsy stamp.signals.challengeId || stamp.signals.challengeSucceeded.isNone then
      (false, dset p3.2 "missingChallengeData" (.bool true))
    else p3

/-- The embedded-challenge signature check (src/verify.ts lines 64-85):
recover the signer from `(message, signature)` and compare case-insensitively
with the declared challenger; a recovery exception is caught and recorded. -/
def challengeSigCheck (recover : String → String → Except String String)
    (stamp : LocationStamp) (d : Details) : Bool × Details :=
  match stamp.signals.challengeResult with
  | none => (true, d)
  | some cr =>
    match recover cr.message cr.signature with
    | .ok recovered =>
      if recovered.toLower ≠ cr.challenger.toLower then
        (false, dset d "challengeSignatureMismatch" (.pair cr.challenger recovered))
      else
        (true, dset (dset d "challengeSignerVerified" (.bool true))
          "recoveredAddress" (.str recovered))
    | .error e => (false, dset d "challengeSignatureError" (.str e))

/-- One iteration of the wrapper-signature loop (src/verify.ts lines 89-105). -/
def checkWrapperSig (recover : String → String → Except String String)
    (message : String) (acc : Bool × Details) (sig : SignatureRecord) : Bool × Details :=
  match recover message sig.value with
  | .ok recovered =>
    if recovered.toLower ≠ sig.signer.value.toLower then
      (false, dset acc.2 "stampSignatureMismatch" (.pair sig.signer.value recovered))
    else acc
  | .error e => (false, dset acc.2 "stampSignatureError" (.str e))

/-- The wrapper-signature section (src/verify.ts lines 88-111): verify every
wrapper signature against the serialized stamp with signatures stripped; when
there are none and no embedded challenge either, signatures are invalid. -/
def wrapperSigCheck (recover : String → String → Except String String)
    (stamp : LocationStamp) (sv : Bool) (d : Details) : Bool × Details :=
  if 0 < stamp.signatures.length then
    stamp.signatures.foldl
      (checkWrapperSig recover (stringifyUnsigned stamp.toUnsignedLocationStamp)) (sv, d)
  else
    match stamp.signals.challengeResult with
    | none => (false, dset d "noSignatures" (.bool true))
    | some _ => (sv, d)

/-- The full signature section of the verifier. -/
def signaturePhase (recover : String → String → Except String String)
    (stamp : LocationStamp) (d : Details) : Bool × Details :=
  let c := challengeSigCheck recover stamp d
  wrapperSigCheck recover stamp c.1 c.2

/-- The coordinate range check (src/verify.ts lines 115-127): only performed
when the location is an object with a `coordinates` member; out-of-range
longitude / latitude are recorded individually.  JS indexing past the end of
the array yields `undefined`, whose comparisons are all false, hence the
`Option` reads. -/
def coordRangeCheck (stamp : LocationStamp) (d : Details) : Bool × Details :=
  match stamp.location with
  | .geo _ coords =>
    let p1 :=
      match coords.get? 0 with
      | some lon =>
        if lon < -180 ∨ 180 < lon then (false, dset d "invalidLongitude" (.num lon))
        else (true, d)
      | none => (true, d)
    (match coords.get? 1 with
     | some lat =>
       if lat < -90 ∨ 90 < lat then (false, dset p1.2 "invalidLatitude" (.num lat))
       else p1
     | none => p1)
  | .str _ => (true, d)

/-- The signal-consistency section of the verifier (src/verify.ts
lines 113-143): coordinate ranges, the non-fatal `challengeFailed` warning,
and the `typeof KnowLoc === 'boolean'` check on the consolidated record. -/
def signalsPhase (stamp : LocationStamp) (d : Details) : Bool × Details :=
  let p1 := coordRangeCheck stamp d
  let d2 :=
    if stamp.signals.challengeSucceeded = some false then
      dset p1.2 "challengeFailed" (.bool true)
    else p1.2
  match stamp.signals.consolidatedResult with
  | some c =>
    if isBoolJs c.KnowLoc then (p1.1, d2)
    else (false, dset d2 "invalidConsolidatedResult" (.str "KnowLoc must be boolean"))
  | none => (p1.1, d2)

/-- `verifyWitnessChainStamp` (src/verify.ts lines 22-152): the three check
sections run unconditionally in order, accumulating into one details map;
`valid` is their conjunction (in the source's operand order).  The function is
total — every verification-time error is captured into `details` and the
boolean flags, never thrown. -/
def verifyWitnessChainStamp (recover : String → String → Except String String)
    (stamp : LocationStamp) : StampVerificationResult :=
  let s := structurePhase stamp
  let g := signaturePhase recover stamp s.2
  let c := signalsPhase stamp g.2
  { valid := g.1 && s.1 && c.1
    signaturesValid := g.1
    structureValid := s.1
    signalsConsistent := c.1
    details := c.2 }

/-- A concrete successful challenge result, patterned after the repository's
test fixture (src/__tests__/fixtures/challenge-result.ts). -/
def crA : WitnessChainChallengeResult :=
  { id := "challenge-001"
    challenge_start_time := "2026-01-15T12:00:00Z"
    challenger := "0xAB"
    challenger_id := "watchtower-nyc-01"
    challenger_claims := { latitude := 40.7128, longitude := -74.006, radius := 50 }
    claims := { latitude := 40.7484, longitude := -73.9857, radius := 100 }
    result := { challenge_succeeded := true, ping_delay := 15000 }
    message := "payload"
    signature := "0xsig"
    consolidated_result :=
      { KnowLoc := .bool true
        KnowLocUncertainty := 5.2
        ipapiCo := some true
        ipregistry := some true
        maxmind := some false
        verified := true } }

/-- A concrete runtime environment. -/
def envA : Env := { now := 0, parseDateMs := fun _ => 1768478400000 }

/-- The same date parser as `envA` but a different wall clock. -/
def envB : Env := { now := 987654321, parseDateMs := fun _ => 1768478400000 }

/-- The flattened signals of the concrete test stamp. -/
def signalsA : StampSignals :=
  { challengeResult := none
    challengeId := some "challenge-001"
    challenger := some "0xAB"
    challengerId := some "watchtower-nyc-01"
    challengerClaims := some { latitude := 40.7128, longitude := -74.006, radius := 50 }
    proverClaims := some { latitude := 40.7484, longitude := -73.9857, radius := 100 }
    challengeSucceeded := some true
    pingDelayMicroseconds := some 15000
    consolidatedResult := some
      { KnowLoc := .bool true, KnowLocUncertainty := 5.2, ipapiCo := some true,
        ipregistry := some true, maxmind := some false, verified := true }
    knowLocUncertaintyKm := some 5.2 }

/-- A concrete point-shaped stamp (as `createWitnessChainStamp` builds it). -/
def stampA : LocationStamp :=
  { lpVersion := "0.2"
    locationType := "geojson-point"
    location := .geo "Point" [-73.9857, 40.7484]
    srs := "EPSG:4326"
    temporalFootprint := { start := 1768478400, end_ := 1768478410 }
    plugin := "witnesschain"
    pluginVersion := "0.1.0"
    signals := signalsA
    signatures := [] }

/-- A concrete point-shaped claim overlapping the stamp in space and time. -/
def claimA : LocationClaim :=
  { location := .geo "Point" [-73.9857, 40.7484]
    radius := 500
    time := { start := 1768478100, end_ := 1768478700 } }

/-- C1 counterexample: the base spatial score is not non-increasing in the
distance.  With effective radius 1, the score is 0 at distance 1 (the edge of
tolerance) but jumps to 1/3 at distance 2, so a larger distance yields a
strictly larger score. -/
theorem spatialBase_not_monotone_cx :
    (0 : ℚ) < 1 ∧ (1 : ℚ) ≤ 2 ∧ ¬ spatialBase 2 1 ≤ spatialBase 1 1 := by
  refine ⟨by norm_num, by norm_num, ?_⟩
  norm_num [spatialBase, max_def]

/-- C1 (amended): for every effective radius r > 0 the base spatial score
equals 1 at distance 0, is non-increasing on each branch separately (on
distances up to r, and on distances beyond r), and equals 0 from 3r onward
(hence tends to 0 as the distance grows); it is not globally non-increasing,
jumping from 0 at distance r to just below 2/3 immediately beyond r. -/
theorem spatialBase_amended_profile (r : ℚ) (hr : 0 < r) :
    spatialBase 0 r = 1
    ∧ (∀ d1 d2 : ℚ, 0 ≤ d1 → d1 ≤ d2 → d2 ≤ r → spatialBase d2 r ≤ spatialBase d1 r)
    ∧ (∀ d1 d2 : ℚ, r < d1 → d1 ≤ d2 → spatialBase d2 r ≤ spatialBase d1 r)
    ∧ (∀ d : ℚ, 3 * r ≤ d → spatialBase d r = 0) := by
  refine ⟨?_, ?_, ?_, ?_⟩
  · simp [spatialBase, hr.le]
  · intro d1 d2 _ h12 h2r
    unfold spatialBase
    rw [if_pos h2r, if_pos (h12.trans h2r)]
    have hdiv : d1 / r ≤ d2 / r := by gcongr
    linarith
  · intro d1 d2 hr1 h12
    unfold spatialBase
    have h3 : (0 : ℚ) < r * 3 := by linarith
    rw [if_neg (not_le.mpr hr1), if_neg (not_le.mpr (hr1.trans_le h12))]
    have hdiv : d1 / (r * 3) ≤ d2 / (r * 3) := by gcongr
    exact max_le_max le_rfl (by linarith)
  · intro d h3r
    unfold spatialBase
    have h3 : (0 : ℚ) < r * 3 := by linarith
    rw [if_neg (not_le.mpr (by linarith))]
    have hone : 1 ≤ d / (r * 3) := (one_le_div h3).2 (by linarith)
    exact max_eq_left (by linarith)

/-- C1 amended witness: the profile instantiated at effective radius 2. -/
theorem spatialBase_amended_profile_wit :
    spatialBase 0 2 = 1 ∧ spatialBase 2 2 ≤ spatialBase 1 2
    ∧ spatialBase 7 2 ≤ spatialBase 5 2 ∧ spatialBase 6 2 = 0 := by
  have h := spatialBase_amended_profile 2 (by norm_num)
  exact ⟨h.1, h.2.1 1 2 (by norm_num) (by norm_num) (by norm_num),
    h.2.2.1 5 7 (by norm_num) (by norm_num), h.2.2.2 6 (by norm_num)⟩

/-- C2 (confirmed): `sign` returns a new stamp embedding the input stamp
unchanged, whose signature sequence is the input's (empty) prior sequence with
exactly one new record appended; the input value itself is not mutated — the
output merely copies it. -/
theorem sign_appends_one_signature (env : Env) (stamp : UnsignedLocationStamp)
    (signer : StampSigner) :
    (WitnessChainPlugin.sign env stamp signer).toUnsignedLocationStamp = stamp
    ∧ (WitnessChainPlugin.sign env stamp signer).signatures =
        priorSignatures stamp ++
          [{ signer := signer.signer
             algorithm := signer.algorithm
             value := signer.sign (stringifyUnsigned stamp)
             timestamp := ((⌊env.now / 1000⌋ : ℤ) : ℚ) }] :=
  ⟨rfl, rfl⟩

/-- Shared bound: the temporal overlap ratio always lies in the unit
interval. -/
theorem temporalOverlap_bounds (a b : TimeWindow) :
    0 ≤ temporalOverlap a b ∧ temporalOverlap a b ≤ 1 := by
  unfold temporalOverlap
  by_cases h1 : min a.end_ b.end_ ≤ max a.start b.start
  · rw [if_pos h1]; norm_num
  · rw [if_neg h1]
    push_neg at h1
    by_cases h2 : 0 < min (a.end_ - a.start) (b.end_ - b.start)
    · rw [if_pos h2]
      have hA : min a.end_ b.end_ - max a.start b.start ≤ a.end_ - a.start := by
        have g1 := min_le_left a.end_ b.end_
        have g2 := le_max_left a.start b.start
        linarith
      have hB : min a.end_ b.end_ - max a.start b.start ≤ b.end_ - b.start := by
        have g1 := min_le_right a.end_ b.end_
        have g2 := le_max_right a.start b.start
        linarith
      constructor
      · exact div_nonneg (by linarith) h2.le
      · rw [div_le_one h2]
        exact le_min hA hB
    · rw [if_neg h2]; norm_num

/-- C7 (confirmed): the temporal component equals
`(min of ends - max of starts) / min(durations)` exactly when the windows
overlap and the shorter duration is positive, equals 0 when the windows do not
overlap or when the shorter duration is 0, always lies in [0,1], and equals 1
for identical intervals of positive duration. -/
theorem temporalOverlap_profile (a b : TimeWindow) :
    (min a.end_ b.end_ ≤ max a.start b.start → temporalOverlap a b = 0)
    ∧ (max a.start b.start < min a.end_ b.end_ →
        0 < min (a.end_ - a.start) (b.end_ - b.start) →
        temporalOverlap a b =
          (min a.end_ b.end_ - max a.start b.start) /
            min (a.end_ - a.start) (b.end_ - b.start))
    ∧ (min (a.end_ - a.start) (b.end_ - b.start) = 0 → temporalOverlap a b = 0)
    ∧ 0 ≤ temporalOverlap a b ∧ temporalOverlap a b ≤ 1
    ∧ (a = b → 0 < b.end_ - b.start → temporalOverlap a b = 1) := by
  refine ⟨?_, ?_, ?_, (temporalOverlap_bounds a b).1, (temporalOverlap_bounds a b).2, ?_⟩
  · intro h; unfold temporalOverlap; rw [if_pos h]
  · intro h1 h2
    unfold temporalOverlap
    rw [if_neg (not_le.mpr h1), if_pos h2]
  · intro h
    unfold temporalOverlap
    by_cases h1 : min a.end_ b.end_ ≤ max a.start b.start
    · rw [if_pos h1]
    · rw [if_neg h1, h, if_neg (lt_irrefl 0)]
  · intro hab hdur
    subst hab
    unfold temporalOverlap
    rw [max_self, min_self, if_neg (by linarith), min_self, if_pos hdur,
      div_self (ne_of_gt hdur)]

/-- C7 witness: the profile evaluated on touching, overlapping and identical
windows. -/
theorem temporalOverlap_profile_wit :
    temporalOverlap ⟨0, 10⟩ ⟨10, 20⟩ = 0
    ∧ temporalOverlap ⟨0, 10⟩ ⟨5, 20⟩ = (min (10 : ℚ) 20 - max 0 5) / min (10 - 0) (20 - 5)
    ∧ temporalOverlap ⟨3, 7⟩ ⟨3, 7⟩ = 1 :=
  ⟨(temporalOverlap_profile ⟨0, 10⟩ ⟨10, 20⟩).1 (by norm_num [min_def, max_def]),
   (temporalOverlap_profile ⟨0, 10⟩ ⟨5, 20⟩).2.1 (by norm_num [min_def, max_def])
     (by norm_num [min_def, max_def]),
   (temporalOverlap_profile ⟨3, 7⟩ ⟨3, 7⟩).2.2.2.2.2 rfl (by norm_num)⟩

/-- C9 (confirmed): the normalize-then-build pipeline is a deterministic
function of the challenge result and the (pure) date parser alone: its result
— and hence its byte serialization — does not depend on the ambient clock or
any other mutable state, so calling it twice yields byte-identical unsigned
stamps. -/
theorem pipeline_deterministic (env1 env2 : Env) (e : WitnessChainChallengeResult)
    (hp : env1.parseDateMs = env2.parseDateMs) :
    createWitnessChainStamp env1 (signalsFromChallengeResult env1 e) =
      createWitnessChainStamp env2 (signalsFromChallengeResult env2 e)
    ∧ (createWitnessChainStamp env1 (signalsFromChallengeResult env1 e)).map
        stringifyUnsigned =
      (createWitnessChainStamp env2 (signalsFromChallengeResult env2 e)).map
        stringifyUnsigned := by
  have h : createWitnessChainStamp env1 (signalsFromChallengeResult env1 e) =
      createWitnessChainStamp env2 (signalsFromChallengeResult env2 e) := by
    unfold createWitnessChainStamp signalsFromChallengeResult
    simp [hp]
  exact ⟨h, by rw [h]⟩

/-- C9 witness: two environments differing only in the wall clock produce the
same unsigned stamp from the concrete fixture. -/
theorem pipeline_deterministic_wit :
    createWitnessChainStamp envA (signalsFromChallengeResult envA crA) =
      createWitnessChainStamp envB (signalsFromChallengeResult envB crA) :=
  (pipeline_deterministic envA envB crA rfl).1

/-- Decomposition of the evaluator on point-shaped inputs: the returned record
is exactly the clamped weighted combination of the bonus-adjusted spatial
score, the temporal overlap, and the challenge-failure penalty, with the
penalty diagnostic recorded when the challenge failed. -/
theorem evaluate_eq (distance : ℚ) (stamp : LocationStamp) (claim : LocationClaim)
    (t1 : String) (c1 : List ℚ) (t2 : String) (c2 : List ℚ)
    (hs : stamp.location = Location.geo t1 c1) (hc : claim.location = Location.geo t2 c2) :
    evaluateWitnessChainStamp distance stamp claim =
      { supportsClaim :=
          decide (0.3 < max 0 (min 1 (spatialAdjusted distance stamp claim * 0.65 +
            temporalOverlap stamp.temporalFootprint claim.time * 0.35 -
            challengePenalty stamp))) &&
          decide (0.1 < spatialAdjusted distance stamp claim) &&
          decide (0 < temporalOverlap stamp.temporalFootprint claim.time)
        score := max 0 (min 1 (spatialAdjusted distance stamp claim * 0.65 +
          temporalOverlap stamp.temporalFootprint claim.time * 0.35 -
          challengePenalty stamp))
        spatial := spatialAdjusted distance stamp claim
        temporal := temporalOverlap stamp.temporalFootprint claim.time
        details :=
          if stamp.signals.challengeSucceeded = some false then
            dset (dset (spatialScoring distance stamp claim).2 "temporalOverlap"
              (.num (temporalOverlap stamp.temporalFootprint claim.time)))
              "challengeFailedPenalty" (.num 0.3)
          else
            dset (spatialScoring distance stamp claim).2 "temporalOverlap"
              (.num (temporalOverlap stamp.temporalFootprint claim.time)) } := by
  simp only [evaluateWitnessChainStamp, hs, hc, spatialAdjusted, challengePenalty]
  split_ifs <;> rfl

/-- C3 (confirmed): on point-shaped inputs the combined score is
`clamp(spatial * 0.65 + temporal * 0.35 - penalty, 0, 1)` where `spatial` is
the returned bonus-adjusted spatial component and `penalty` is the
challenge-failure penalty, and `supportsClaim` holds exactly when
`score > 0.3`, `spatial > 0.1` and `temporal > 0` all hold. -/
theorem evaluate_score_and_verdict (distance : ℚ) (stamp : LocationStamp)
    (claim : LocationClaim) (h1 : isCoordObj stamp.location = true)
    (h2 : isCoordObj claim.location = true) :
    (evaluateWitnessChainStamp distance stamp claim).score =
      max 0 (min 1 ((evaluateWitnessChainStamp distance stamp claim).spatial * 0.65 +
        (evaluateWitnessChainStamp distance stamp claim).temporal * 0.35 -
        (if stamp.signals.challengeSucceeded = some false then 0.3 else 0)))
    ∧ ((evaluateWitnessChainStamp distance stamp claim).supportsClaim = true ↔
        (0.3 < (evaluateWitnessChainStamp distance stamp claim).score ∧
         0.1 < (evaluateWitnessChainStamp distance stamp claim).spatial ∧
         0 < (evaluateWitnessChainStamp distance stamp claim).temporal)) := by
  obtain ⟨t1, c1, hs⟩ : ∃ t c, stamp.location = Location.geo t c := by
    cases h : stamp.location with
    | geo t c => exact ⟨t, c, rfl⟩
    | str s => rw [h] at h1; simp [isCoordObj] at h1
  obtain ⟨t2, c2, hc⟩ : ∃ t c, claim.location = Location.geo t c := by
    cases h : claim.location with
    | geo t c => exact ⟨t, c, rfl⟩
    | str s => rw [h] at h2; simp [isCoordObj] at h2
  rw [evaluate_eq distance stamp claim t1 c1 t2 c2 hs hc]
  constructor
  · simp [challengePenalty]
  · simp [Bool.and_eq_true, decide_eq_true_eq, and_assoc]

/-- C3 witness: the concrete stamp/claim pair at distance 4100 m supports the
claim, via the verdict equivalence. -/
theorem evaluate_score_and_verdict_wit :
    (evaluateWitnessChainStamp 4100 stampA claimA).supportsClaim = true := by
  have h := evaluate_score_and_verdict 4100 stampA claimA rfl rfl
  refine h.2.mpr ⟨?_, ?_, ?_⟩ <;>
    norm_num [evaluateWitnessChainStamp, stampA, claimA, signalsA, spatialScoring,
      spatialBase, temporalOverlap, consolidatedSources, dset, dlookup, min_def, max_def]

/-- Shared bound: the base spatial score lies in [0,1] for nonnegative
distance and positive effective radius. -/
theorem spatialBase_bounds (d r : ℚ) (hd : 0 ≤ d) (hr : 0 < r) :
    0 ≤ spatialBase d r ∧ spatialBase d r ≤ 1 := by
  unfold spatialBase
  split_ifs with h
  · have h1 : d / r ≤ 1 := (div_le_one hr).2 h
    have h2 : 0 ≤ d / r := div_nonneg hd hr.le
    constructor <;> linarith
  · constructor
    · exact le_max_left 0 _
    · apply max_le (by norm_num)
      have h3 : 0 ≤ d / (r * 3) := div_nonneg hd (by linarith)
      linarith

/-- Shared bound: capping an addition at 1 keeps the unit interval when the
summands are nonnegative. -/
theorem min1_bounds (x : ℚ) (hx : 0 ≤ x) : 0 ≤ min 1 x ∧ min 1 x ≤ 1 :=
  ⟨le_min (by norm_num) hx, min_le_left _ _⟩

/-- Shared bound: the bonus-adjusted spatial component lies in [0,1] for
nonnegative distance and positive effective radius. -/
theorem spatialAdjusted_bounds (distance : ℚ) (stamp : LocationStamp)
    (claim : LocationClaim) (hd : 0 ≤ distance)
    (hr : 0 < claim.radius + stamp.signals.knowLocUncertaintyKm.getD 50 * 1000) :
    0 ≤ spatialAdjusted distance stamp claim
    ∧ spatialAdjusted distance stamp claim ≤ 1 := by
  have hb := spatialBase_bounds distance _ hd hr
  unfold spatialAdjusted spatialScoring
  cases hcons : stamp.signals.consolidatedResult with
  | none => exact hb
  | some c =>
    have hq : (0 : ℚ) ≤
        (((consolidatedSources c).filter (fun o => o == some true)).length : ℚ) /
          (((consolidatedSources c).filter (fun o => o.isSome)).length : ℚ) * 0.1 := by
      positivity
    have h05 : (0 : ℚ) ≤ 0.05 := by norm_num
    simp only [apply_ite Prod.fst]
    split_ifs <;>
      first
        | exact hb
        | exact min1_bounds _ (add_nonneg hb.1 hq)
        | exact min1_bounds _ (add_nonneg hb.1 h05)
        | exact min1_bounds _ (add_nonneg (min1_bounds _ (add_nonneg hb.1 hq)).1 h05)
        | exact min1_bounds _ (add_nonneg (min1_bounds _ (add_nonneg hb.1 h05)).1 h05)
        | exact min1_bounds _
            (add_nonneg (min1_bounds _
              (add_nonneg (min1_bounds _ (add_nonneg hb.1 hq)).1 h05)).1 h05)

/-- The otherwise-identical stamp whose challenge succeeded. -/
def successVariant (stamp : LocationStamp) : LocationStamp :=
  { stamp with
      signals := { stamp.signals with challengeSucceeded := some true } }

/-- The spatial scoring section never reads the success flag, so it is
unchanged between a stamp and its success variant. -/
theorem spatialScoring_successVariant (distance : ℚ) (stamp : LocationStamp)
    (claim : LocationClaim) :
    spatialScoring distance (successVariant stamp) claim =
      spatialScoring distance stamp claim := rfl

/-- A failing-challenge stamp far from the claim: no corroboration record,
50 km uncertainty. -/
def stampF : LocationStamp :=
  { stampA with
      signals :=
        { signalsA with
            challengeSucceeded := some false
            consolidatedResult := none
            knowLocUncertaintyKm := some 50 } }

/-- A point claim of radius 0 whose time window is disjoint from the stamp
footprint. -/
def claimB : LocationClaim :=
  { location := .geo "Point" [0, 0], radius := 0, time := { start := 0, end_ := 10 } }

/-- C6 counterexample: at distance 200 km the failing stamp records the 0.3
penalty, yet its score is not exactly 0.3 lower than the otherwise-identical
successful stamp — both scores clamp to 0, so the difference is 0. -/
theorem penalty_clamped_cx :
    stampF.signals.challengeSucceeded = some false
    ∧ dlookup (evaluateWitnessChainStamp 200000 stampF claimB).details
        "challengeFailedPenalty" = some (.num 0.3)
    ∧ ¬ ((evaluateWitnessChainStamp 200000 (successVariant stampF) claimB).score -
          (evaluateWitnessChainStamp 200000 stampF claimB).score = 0.3) := by
  have hF : (evaluateWitnessChainStamp 200000 stampF claimB).score = 0 := by
    norm_num [evaluateWitnessChainStamp, stampF, claimB, stampA, signalsA, spatialScoring,
      spatialBase, temporalOverlap, consolidatedSources, dset, dlookup, min_def, max_def]
  have hT : (evaluateWitnessChainStamp 200000 (successVariant stampF) claimB).score = 0 := by
    norm_num [evaluateWitnessChainStamp, successVariant, stampF, claimB, stampA, signalsA,
      spatialScoring, spatialBase, temporalOverlap, consolidatedSources, dset, dlookup,
      min_def, max_def]
  refine ⟨rfl, ?_, ?_⟩
  · simp only [evaluateWitnessChainStamp, stampF, claimB, stampA, signalsA, spatialScoring,
      spatialBase, temporalOverlap, consolidatedSources, dset, dlookup]
    norm_num [min_def, max_def, List.find?]
    simp
  · rw [hT, hF]; norm_num

/-- C6 (amended, corrected): for point-shaped inputs with a failed challenge,
nonnegative distance and positive effective radius, the evaluator records
`details.challengeFailedPenalty = 0.3`, leaves the spatial component exactly
as in the otherwise-identical successful case, and returns
`score = max(0, successScore - 0.3)`; the reduction is exactly 0.3 whenever
the successful score is at least 0.3, but smaller when that score is below
0.3, because the combined score clamps at 0. -/
theorem penalty_amended (distance : ℚ) (stamp : LocationStamp) (claim : LocationClaim)
    (h1 : isCoordObj stamp.location = true) (h2 : isCoordObj claim.location = true)
    (hfail : stamp.signals.challengeSucceeded = some false)
    (hd : 0 ≤ distance)
    (hr : 0 < claim.radius + stamp.signals.knowLocUncertaintyKm.getD 50 * 1000) :
    dlookup (evaluateWitnessChainStamp distance stamp claim).details
      "challengeFailedPenalty" = some (.num 0.3)
    ∧ (evaluateWitnessChainStamp distance stamp claim).spatial =
        (evaluateWitnessChainStamp distance (successVariant stamp) claim).spatial
    ∧ (evaluateWitnessChainStamp distance stamp claim).score =
        max 0 ((evaluateWitnessChainStamp distance (successVariant stamp) claim).score
          - 0.3)
    ∧ (0.3 ≤ (evaluateWitnessChainStamp distance (successVariant stamp) claim).score →
        (evaluateWitnessChainStamp distance (successVariant stamp) claim).score -
          (evaluateWitnessChainStamp distance stamp claim).score = 0.3) := by
  obtain ⟨t1, c1, hs⟩ : ∃ t c, stamp.location = Location.geo t c := by
    cases h : stamp.location with
    | geo t c => exact ⟨t, c, rfl⟩
    | str s => rw [h] at h1; simp [isCoordObj] at h1
  obtain ⟨t2, c2, hc⟩ : ∃ t c, claim.location = Location.geo t c := by
    cases h : claim.location with
    | geo t c => exact ⟨t, c, rfl⟩
    | str s => rw [h] at h2; simp [isCoordObj] at h2
  have hs' : (successVariant stamp).location = Location.geo t1 c1 := hs
  have eF := evaluate_eq distance stamp claim t1 c1 t2 c2 hs hc
  have eT := evaluate_eq distance (successVariant stamp) claim t1 c1 t2 c2 hs' hc
  have hpF : challengePenalty stamp = 0.3 := by simp [challengePenalty, hfail]
  have hpT : challengePenalty (successVariant stamp) = 0 := by
    simp [challengePenalty, successVariant]
  have hSv : spatialAdjusted distance (successVariant stamp) claim =
      spatialAdjusted distance stamp claim := by
    unfold spatialAdjusted; rw [spatialScoring_successVariant]
  have hTv : (successVariant stamp).temporalFootprint = stamp.temporalFootprint := rfl
  have hSucc : (successVariant stamp).signals.challengeSucceeded = some true := rfl
  rw [hpF] at eF
  rw [hpT, hSv, hTv, hSucc] at eT
  have hS := spatialAdjusted_bounds distance stamp claim hd hr
  have hT := temporalOverlap_bounds stamp.temporalFootprint claim.time
  have hw0 : 0 ≤ spatialAdjusted distance stamp claim * 0.65 +
      temporalOverlap stamp.temporalFootprint claim.time * 0.35 := by
    have g1 : 0 ≤ spatialAdjusted distance stamp claim * 0.65 :=
      mul_nonneg hS.1 (by norm_num)
    have g2 : 0 ≤ temporalOverlap stamp.temporalFootprint claim.time * 0.35 :=
      mul_nonneg hT.1 (by norm_num)
    linarith
  have hw1 : spatialAdjusted distance stamp claim * 0.65 +
      temporalOverlap stamp.temporalFootprint claim.time * 0.35 ≤ 1 := by
    have g1 : spatialAdjusted distance stamp claim * 0.65 ≤ 1 * 0.65 :=
      mul_le_mul_of_nonneg_right hS.2 (by norm_num)
    have g2 : temporalOverlap stamp.temporalFootprint claim.time * 0.35 ≤ 1 * 0.35 :=
      mul_le_mul_of_nonneg_right hT.2 (by norm_num)
    linarith
  refine ⟨?_, ?_, ?_, ?_⟩
  · rw [eF]
    simp only [hfail, reduceIte]
    exact dlookup_dset_self _ _ _
  · rw [eF, eT]
  · rw [eF, eT]
    simp only
    rw [sub_zero, min_eq_right hw1, max_eq_right hw0, min_eq_right (by linarith :
      spatialAdjusted distance stamp claim * 0.65 +
        temporalOverlap stamp.temporalFootprint claim.time * 0.35 - 0.3 ≤ 1)]
  · rw [eF, eT]
    simp only
    rw [sub_zero, min_eq_right hw1, max_eq_right hw0, min_eq_right (by linarith :
      spatialAdjusted distance stamp claim * 0.65 +
        temporalOverlap stamp.temporalFootprint claim.time * 0.35 - 0.3 ≤ 1)]
    intro h
    rw [max_eq_right (by linarith)]
    ring

/-- The concrete test stamp with a failed challenge. -/
def stampFailA : LocationStamp :=
  { stampA with
      signals := { signalsA with challengeSucceeded := some false } }

/-- C6 amended witness: the amended penalty law instantiated on the concrete
failing stamp against the concrete claim at distance 4100 m. -/
theorem penalty_amended_wit :
    dlookup (evaluateWitnessChainStamp 4100 stampFailA claimA).details
      "challengeFailedPenalty" = some (.num 0.3)
    ∧ (evaluateWitnessChainStamp 4100 stampFailA claimA).score =
        max 0 ((evaluateWitnessChainStamp 4100 (successVariant stampFailA) claimA).score
          - 0.3) := by
  have h := penalty_amended 4100 stampFailA claimA rfl rfl rfl (by norm_num)
    (by norm_num [claimA, stampFailA, stampA, signalsA])
  exact ⟨h.1, h.2.2.1⟩

/-- The coordinate range check writes only its two diagnostic keys. -/
theorem coordRangeCheck_dlookup (stamp : LocationStamp) (d : Details) (k : String)
    (h1 : k ≠ "invalidLongitude") (h2 : k ≠ "invalidLatitude") :
    dlookup (coordRangeCheck stamp d).2 k = dlookup d k := by
  cases hloc : stamp.location with
  | str s => simp only [coordRangeCheck, hloc]
  | geo t coords =>
    cases h0 : coords.get? 0 with
    | none =>
      cases hL : coords.get? 1 with
      | none => simp only [coordRangeCheck, hloc, h0, hL]
      | some lat =>
        simp only [coordRangeCheck, hloc, h0, hL]
        split_ifs
        · exact dlookup_dset_ne _ _ _ _ h2
        · rfl
    | some lon =>
      cases hL : coords.get? 1 with
      | none =>
        simp only [coordRangeCheck, hloc, h0, hL]
        split_ifs
        · exact dlookup_dset_ne _ _ _ _ h1
        · rfl
      | some lat =>
        simp only [coordRangeCheck, hloc, h0, hL]
        split_ifs
        · rw [dlookup_dset_ne _ _ _ _ h2, dlookup_dset_ne _ _ _ _ h1]
        · rw [dlookup_dset_ne _ _ _ _ h2]
        · exact dlookup_dset_ne _ _ _ _ h1
        · rfl

/-- The boolean verdict of the coordinate range check does not depend on the
incoming details. -/
theorem coordRangeCheck_fst (stamp : LocationStamp) (d d' : Details) :
    (coordRangeCheck stamp d).1 = (coordRangeCheck stamp d').1 := by
  cases hloc : stamp.location with
  | str s => simp only [coordRangeCheck, hloc]
  | geo t coords =>
    cases h0 : coords.get? 0 with
    | none =>
      cases hL : coords.get? 1 with
      | none => simp only [coordRangeCheck, hloc, h0, hL]
      | some lat =>
        simp only [coordRangeCheck, hloc, h0, hL]
        split_ifs <;> rfl
    | some lon =>
      cases hL : coords.get? 1 with
      | none =>
        simp only [coordRangeCheck, hloc, h0, hL]
        split_ifs <;> rfl
      | some lat =>
        simp only [coordRangeCheck, hloc, h0, hL]
        split_ifs <;> rfl

/-- The signal-consistency section writes only its four diagnostic keys. -/
theorem signalsPhase_dlookup (stamp : LocationStamp) (d : Details) (k : String)
    (h1 : k ≠ "invalidLongitude") (h2 : k ≠ "invalidLatitude")
    (h3 : k ≠ "challengeFailed") (h4 : k ≠ "invalidConsolidatedResult") :
    dlookup (signalsPhase stamp d).2 k = dlookup d k := by
  have hcoord := coordRangeCheck_dlookup stamp d k h1 h2
  cases hcons : stamp.signals.consolidatedResult with
  | none =>
    simp only [signalsPhase, hcons]
    split_ifs <;> try simp only []
    · rw [dlookup_dset_ne _ _ _ _ h3]; exact hcoord
    · exact hcoord
  | some c =>
    simp only [signalsPhase, hcons]
    split_ifs <;> try simp only []
    all_goals
      repeat' first
        | rw [dlookup_dset_ne _ _ _ _ h3]
        | rw [dlookup_dset_ne _ _ _ _ h4]
    all_goals exact hcoord

/-- The signal-consistency verdict does not depend on the incoming details. -/
theorem signalsPhase_fst (stamp : LocationStamp) (d d' : Details) :
    (signalsPhase stamp d).1 = (signalsPhase stamp d').1 := by
  have hcoord := coordRangeCheck_fst stamp d d'
  cases hcons : stamp.signals.consolidatedResult with
  | none => simp only [signalsPhase, hcons]; exact hcoord
  | some c =>
    simp only [signalsPhase, hcons]
    split_ifs <;> first | exact hcoord | rfl

/-- The embedded-challenge signature check writes only its four diagnostic
keys. -/
theorem challengeSigCheck_dlookup (recover : String → String → Except String String)
    (stamp : LocationStamp) (d : Details) (k : String)
    (h1 : k ≠ "challengeSignatureMismatch") (h2 : k ≠ "challengeSignerVerified")
    (h3 : k ≠ "recoveredAddress") (h4 : k ≠ "challengeSignatureError") :
    dlookup (challengeSigCheck recover stamp d).2 k = dlookup d k := by
  cases hcr : stamp.signals.challengeResult with
  | none => simp only [challengeSigCheck, hcr]
  | some cr =>
    cases hrec : recover cr.message cr.signature with
    | ok recovered =>
      simp only [challengeSigCheck, hcr, hrec]
      split_ifs <;> try simp only []
      · exact dlookup_dset_ne _ _ _ _ h1
      · rw [dlookup_dset_ne _ _ _ _ h3, dlookup_dset_ne _ _ _ _ h2]
    | error e =>
      simp only [challengeSigCheck, hcr, hrec]
      exact dlookup_dset_ne _ _ _ _ h4

/-- One wrapper-signature iteration writes only its two diagnostic keys. -/
theorem checkWrapperSig_dlookup (recover : String → String → Except String String)
    (message : String) (acc : Bool × Details) (sig : SignatureRecord) (k : String)
    (h1 : k ≠ "stampSignatureMismatch") (h2 : k ≠ "stampSignatureError") :
    dlookup (checkWrapperSig recover message acc sig).2 k = dlookup acc.2 k := by
  cases hrec : recover message sig.value with
  | ok recovered =>
    simp only [checkWrapperSig, hrec]
    split_ifs <;> try simp only []
    all_goals exact dlookup_dset_ne _ _ _ _ h1
  | error e =>
    simp only [checkWrapperSig, hrec]
    exact dlookup_dset_ne _ _ _ _ h2

/-- The wrapper-signature fold writes only its two diagnostic keys. -/
theorem foldWrap_dlookup (recover : String → String → Except String String)
    (message : String) (sigs : List SignatureRecord) :
    ∀ (acc : Bool × Details) (k : String), k ≠ "stampSignatureMismatch" →
      k ≠ "stampSignatureError" →
      dlookup ((sigs.foldl (checkWrapperSig recover message) acc).2) k =
        dlookup acc.2 k := by
  induction sigs with
  | nil => intro acc k _ _; rfl
  | cons sig t ih =>
    intro acc k h1 h2
    rw [List.foldl_cons, ih _ k h1 h2, checkWrapperSig_dlookup recover message acc sig k h1 h2]

/-- One wrapper-signature iteration never turns the verdict back to true. -/
theorem checkWrapperSig_fst_false (recover : String → String → Except String String)
    (message : String) (acc : Bool × Details) (sig : SignatureRecord)
    (h : acc.1 = false) : (checkWrapperSig recover message acc sig).1 = false := by
  cases hrec : recover message sig.value with
  | ok recovered =>
    simp only [checkWrapperSig, hrec]
    split_ifs <;> simp [h]
  | error e => simp only [checkWrapperSig, hrec]

/-- The wrapper-signature fold never turns the verdict back to true. -/
theorem foldWrap_fst_false (recover : String → String → Except String String)
    (message : String) (sigs : List SignatureRecord) :
    ∀ acc : Bool × Details, acc.1 = false →
      ((sigs.foldl (checkWrapperSig recover message) acc).1) = false := by
  induction sigs with
  | nil => intro acc h; exact h
  | cons sig t ih =>
    intro acc h
    rw [List.foldl_cons]
    exact ih _ (checkWrapperSig_fst_false recover message acc sig h)

/-- A wrapper signature fails verification: recovery succeeds with the wrong
identity, or recovery throws. -/
def wrapperFails (recover : String → String → Except String String)
    (message : String) (sig : SignatureRecord) : Prop :=
  (∃ rec, recover message sig.value = .ok rec ∧ rec.toLower ≠ sig.signer.value.toLower)
  ∨ (∃ e, recover message sig.value = .error e)

/-- A failing wrapper signature makes its iteration report false. -/
theorem checkWrapperSig_fails_fst (recover : String → String → Except String String)
    (message : String) (acc : Bool × Details) (sig : SignatureRecord)
    (h : wrapperFails recover message sig) :
    (checkWrapperSig recover message acc sig).1 = false := by
  rcases h with ⟨rec, hok, hne⟩ | ⟨e, herr⟩
  · simp only [checkWrapperSig, hok]
    rw [if_pos hne]
  · simp only [checkWrapperSig, herr]

/-- If some member of the signature list fails, the fold reports false. -/
theorem foldWrap_fails_fst (recover : String → String → Except String String)
    (message : String) (sigs : List SignatureRecord) (sig : SignatureRecord) :
    sig ∈ sigs → wrapperFails recover message sig →
    ∀ acc : Bool × Details,
      ((sigs.foldl (checkWrapperSig recover message) acc).1) = false := by
  induction sigs with
  | nil => intro hmem; cases hmem
  | cons s t ih =>
    intro hmem hfail acc
    rcases List.mem_cons.mp hmem with heq | hmem'
    · subst heq
      rw [List.foldl_cons]
      exact foldWrap_fst_false recover message t _
        (checkWrapperSig_fails_fst recover message acc sig hfail)
    · rw [List.foldl_cons]
      exact ih hmem' hfail _

/-- One of the two wrapper-failure diagnostics is present in a details map. -/
def hasWrapperDiag (d : Details) : Prop :=
  (dlookup d "stampSignatureMismatch").isSome ∨ (dlookup d "stampSignatureError").isSome

/-- Setting any key preserves presence of a key. -/
theorem hasWrapperDiag_dset (d : Details) (k : String) (v : DetailValue)
    (h : hasWrapperDiag d) : hasWrapperDiag (dset d k v) := by
  rcases h with h | h
  · exact Or.inl (dlookup_dset_isSome d _ k v h)
  · exact Or.inr (dlookup_dset_isSome d _ k v h)

/-- One wrapper-signature iteration preserves the failure diagnostics. -/
theorem checkWrapperSig_diag_mono (recover : String → String → Except String String)
    (message : String) (acc : Bool × Details) (sig : SignatureRecord)
    (h : hasWrapperDiag acc.2) :
    hasWrapperDiag (checkWrapperSig recover message acc sig).2 := by
  cases hrec : recover message sig.value with
  | ok recovered =>
    simp only [checkWrapperSig, hrec]
    split_ifs <;> first | exact hasWrapperDiag_dset _ _ _ h | exact h
  | error e =>
    simp only [checkWrapperSig, hrec]
    exact hasWrapperDiag_dset _ _ _ h

/-- A failing wrapper signature records one of the two failure diagnostics. -/
theorem checkWrapperSig_fails_diag (recover : String → String → Except String String)
    (message : String) (acc : Bool × Details) (sig : SignatureRecord)
    (h : wrapperFails recover message sig) :
    hasWrapperDiag (checkWrapperSig recover message acc sig).2 := by
  rcases h with ⟨rec, hok, hne⟩ | ⟨e, herr⟩
  · simp only [checkWrapperSig, hok]
    rw [if_pos hne]
    exact Or.inl (by rw [dlookup_dset_self]; rfl)
  · simp only [checkWrapperSig, herr]
    exact Or.inr (by rw [dlookup_dset_self]; rfl)

/-- The wrapper fold preserves the failure diagnostics. -/
theorem foldWrap_diag_mono (recover : String → String → Except String String)
    (message : String) (sigs : List SignatureRecord) :
    ∀ acc : Bool × Details, hasWrapperDiag acc.2 →
      hasWrapperDiag ((sigs.foldl (checkWrapperSig recover message) acc).2) := by
  induction sigs with
  | nil => intro acc h; exact h
  | cons sig t ih =>
    intro acc h
    rw [List.foldl_cons]
    exact ih _ (checkWrapperSig_diag_mono recover message acc sig h)

/-- If some member of the list fails, the fold records a failure diagnostic. -/
theorem foldWrap_fails_diag (recover : String → String → Except String String)
    (message : String) (sigs : List SignatureRecord) (sig : SignatureRecord) :
    sig ∈ sigs → wrapperFails recover message sig →
    ∀ acc : Bool × Details,
      hasWrapperDiag ((sigs.foldl (checkWrapperSig recover message) acc).2) := by
  induction sigs with
  | nil => intro hmem; cases hmem
  | cons s t ih =>
    intro hmem hfail acc
    rcases List.mem_cons.mp hmem with heq | hmem'
    · subst heq
      rw [List.foldl_cons]
      exact foldWrap_diag_mono recover message t _
        (checkWrapperSig_fails_diag recover message acc sig hfail)
    · rw [List.foldl_cons]
      exact ih hmem' hfail _

/-- The structure phase writes only its four diagnostic keys; every other key
is absent from its details. -/
theorem structurePhase_dlookup_none (stamp : LocationStamp) (k : String)
    (h1 : k ≠ "lpVersionError") (h2 : k ≠ "pluginMismatch")
    (h3 : k ≠ "missingFields") (h4 : k ≠ "missingChallengeData") :
    dlookup (structurePhase stamp).2 k = none := by
  cases hcr : stamp.signals.challengeResult with
  | some cr =>
    simp only [structurePhase, hcr]
    split_ifs <;> try simp only []
    all_goals
      repeat' first
        | rw [dlookup_dset_ne _ _ _ _ h1]
        | rw [dlookup_dset_ne _ _ _ _ h2]
        | rw [dlookup_dset_ne _ _ _ _ h3]
    all_goals rfl
  | none =>
    simp only [structurePhase, hcr]
    split_ifs <;> try simp only []
    all_goals
      repeat' first
        | rw [dlookup_dset_ne _ _ _ _ h1]
        | rw [dlookup_dset_ne _ _ _ _ h2]
        | rw [dlookup_dset_ne _ _ _ _ h3]
        | rw [dlookup_dset_ne _ _ _ _ h4]
    all_goals rfl

/-- Any key present after the structure phase is one of its four keys. -/
theorem structurePhase_keys (stamp : LocationStamp) (k : String) (v : DetailValue)
    (h : dlookup (structurePhase stamp).2 k = some v) :
    k = "lpVersionError" ∨ k = "pluginMismatch" ∨ k = "missingFields" ∨
      k = "missingChallengeData" := by
  by_contra hc
  push_neg at hc
  rw [structurePhase_dlookup_none stamp k hc.1 hc.2.1 hc.2.2.1 hc.2.2.2] at h
  exact Option.noConfusion h

/-- The wrapper-signature section writes only its three diagnostic keys. -/
theorem wrapperSigCheck_dlookup (recover : String → String → Except String String)
    (stamp : LocationStamp) (sv : Bool) (d : Details) (k : String)
    (h1 : k ≠ "stampSignatureMismatch") (h2 : k ≠ "stampSignatureError")
    (h3 : k ≠ "noSignatures") :
    dlookup (wrapperSigCheck recover stamp sv d).2 k = dlookup d k := by
  cases hcr : stamp.signals.challengeResult with
  | none =>
    simp only [wrapperSigCheck, hcr]
    split_ifs
    · exact foldWrap_dlookup recover _ stamp.signatures (sv, d) k h1 h2
    · exact dlookup_dset_ne _ _ _ _ h3
  | some cr =>
    simp only [wrapperSigCheck, hcr]
    split_ifs
    · exact foldWrap_dlookup recover _ stamp.signatures (sv, d) k h1 h2
    · rfl

/-- The signature phase writes only its seven diagnostic keys. -/
theorem signaturePhase_dlookup (recover : String → String → Except String String)
    (stamp : LocationStamp) (d : Details) (k : String)
    (h1 : k ≠ "challengeSignatureMismatch") (h2 : k ≠ "challengeSignerVerified")
    (h3 : k ≠ "recoveredAddress") (h4 : k ≠ "challengeSignatureError")
    (h5 : k ≠ "stampSignatureMismatch") (h6 : k ≠ "stampSignatureError")
    (h7 : k ≠ "noSignatures") :
    dlookup (signaturePhase recover stamp d).2 k = dlookup d k := by
  unfold signaturePhase
  rw [wrapperSigCheck_dlookup recover stamp _ _ k h5 h6 h7,
    challengeSigCheck_dlookup recover stamp d k h1 h2 h3 h4]

/-- A caught recovery exception on the embedded challenge yields exactly the
false verdict and the error diagnostic. -/
theorem challengeSigCheck_error (recover : String → String → Except String String)
    (stamp : LocationStamp) (d : Details) (cr : WitnessChainChallengeResult) (e : String)
    (hcr : stamp.signals.challengeResult = some cr)
    (herr : recover cr.message cr.signature = .error e) :
    challengeSigCheck recover stamp d =
      (false, dset d "challengeSignatureError" (.str e)) := by
  simp only [challengeSigCheck, hcr, herr]

/-- A recovered identity that mismatches the declared challenger yields
exactly the false verdict and the mismatch diagnostic. -/
theorem challengeSigCheck_mismatch (recover : String → String → Except String String)
    (stamp : LocationStamp) (d : Details) (cr : WitnessChainChallengeResult) (rec : String)
    (hcr : stamp.signals.challengeResult = some cr)
    (hok : recover cr.message cr.signature = .ok rec)
    (hne : rec.toLower ≠ cr.challenger.toLower) :
    challengeSigCheck recover stamp d =
      (false, dset d "challengeSignatureMismatch" (.pair cr.challenger rec)) := by
  simp only [challengeSigCheck, hcr, hok]
  rw [if_pos hne]

/-- A false incoming signature verdict survives the wrapper section. -/
theorem wrapperSigCheck_fst_false (recover : String → String → Except String String)
    (stamp : LocationStamp) (d : Details) :
    (wrapperSigCheck recover stamp false d).1 = false := by
  cases hcr : stamp.signals.challengeResult with
  | none =>
    simp only [wrapperSigCheck, hcr]
    split_ifs
    · exact foldWrap_fst_false recover _ stamp.signatures (false, d) rfl
    · rfl
  | some cr =>
    simp only [wrapperSigCheck, hcr]
    split_ifs
    · exact foldWrap_fst_false recover _ stamp.signatures (false, d) rfl
    · rfl

/-- C4 (confirmed): verification always returns a result; a recovery
exception or identity mismatch — for the embedded challenge signature or for
any wrapper signature — is caught, sets `signaturesValid = false`, and is
recorded in `details`, while the structure and signal-consistency checks are
still evaluated and reported independently of the recovery capability. -/
theorem verify_captures_signature_failures
    (recover : String → String → Except String String) (stamp : LocationStamp) :
    (∀ recover2 : String → String → Except String String,
      (verifyWitnessChainStamp recover stamp).structureValid =
        (verifyWitnessChainStamp recover2 stamp).structureValid
      ∧ (verifyWitnessChainStamp recover stamp).signalsConsistent =
        (verifyWitnessChainStamp recover2 stamp).signalsConsistent)
    ∧ (∀ (cr : WitnessChainChallengeResult) (e : String),
        stamp.signals.challengeResult = some cr →
        recover cr.message cr.signature = .error e →
        (verifyWitnessChainStamp recover stamp).signaturesValid = false
        ∧ dlookup (verifyWitnessChainStamp recover stamp).details
            "challengeSignatureError" = some (.str e))
    ∧ (∀ (cr : WitnessChainChallengeResult) (rec : String),
        stamp.signals.challengeResult = some cr →
        recover cr.message cr.signature = .ok rec →
        rec.toLower ≠ cr.challenger.toLower →
        (verifyWitnessChainStamp recover stamp).signaturesValid = false
        ∧ dlookup (verifyWitnessChainStamp recover stamp).details
            "challengeSignatureMismatch" = some (.pair cr.challenger rec))
    ∧ (∀ sig : SignatureRecord, sig ∈ stamp.signatures →
        wrapperFails recover (stringifyUnsigned stamp.toUnsignedLocationStamp) sig →
        (verifyWitnessChainStamp recover stamp).signaturesValid = false
        ∧ hasWrapperDiag (verifyWitnessChainStamp recover stamp).details) := by
  refine ⟨?_, ?_, ?_, ?_⟩
  · intro recover2
    exact ⟨rfl, signalsPhase_fst stamp _ _⟩
  · intro cr e hcr herr
    have hch := challengeSigCheck_error recover stamp (structurePhase stamp).2 cr e hcr herr
    constructor
    · show (wrapperSigCheck recover stamp
        (challengeSigCheck recover stamp (structurePhase stamp).2).1
        (challengeSigCheck recover stamp (structurePhase stamp).2).2).1 = false
      rw [hch]
      exact wrapperSigCheck_fst_false recover stamp _
    · show dlookup (signalsPhase stamp
        (wrapperSigCheck recover stamp
          (challengeSigCheck recover stamp (structurePhase stamp).2).1
          (challengeSigCheck recover stamp (structurePhase stamp).2).2).2).2
        "challengeSignatureError" = some (.str e)
      rw [signalsPhase_dlookup stamp _ _ (by decide) (by decide) (by decide) (by decide),
        hch, wrapperSigCheck_dlookup recover stamp _ _ _ (by decide) (by decide)
          (by decide)]
      exact dlookup_dset_self _ _ _
  · intro cr rec hcr hok hne
    have hch := challengeSigCheck_mismatch recover stamp (structurePhase stamp).2 cr rec
      hcr hok hne
    constructor
    · show (wrapperSigCheck recover stamp
        (challengeSigCheck recover stamp (structurePhase stamp).2).1
        (challengeSigCheck recover stamp (structurePhase stamp).2).2).1 = false
      rw [hch]
      exact wrapperSigCheck_fst_false recover stamp _
    · show dlookup (signalsPhase stamp
        (wrapperSigCheck recover stamp
          (challengeSigCheck recover stamp (structurePhase stamp).2).1
          (challengeSigCheck recover stamp (structurePhase stamp).2).2).2).2
        "challengeSignatureMismatch" = some (.pair cr.challenger rec)
      rw [signalsPhase_dlookup stamp _ _ (by decide) (by decide) (by decide) (by decide),
        hch, wrapperSigCheck_dlookup recover stamp _ _ _ (by decide) (by decide)
          (by decide)]
      exact dlookup_dset_self _ _ _
  · intro sig hmem hfail
    have hlen : 0 < stamp.signatures.length :=
      List.length_pos.mpr (List.ne_nil_of_mem hmem)
    constructor
    · show (wrapperSigCheck recover stamp
        (challengeSigCheck recover stamp (structurePhase stamp).2).1
        (challengeSigCheck recover stamp (structurePhase stamp).2).2).1 = false
      cases hcr : stamp.signals.challengeResult with
      | none =>
        simp only [wrapperSigCheck, hcr, if_pos hlen]
        exact foldWrap_fails_fst recover _ stamp.signatures sig hmem hfail _
      | some cr =>
        simp only [wrapperSigCheck, hcr, if_pos hlen]
        exact foldWrap_fails_fst recover _ stamp.signatures sig hmem hfail _
    · show hasWrapperDiag (signalsPhase stamp
        (wrapperSigCheck recover stamp
          (challengeSigCheck recover stamp (structurePhase stamp).2).1
          (challengeSigCheck recover stamp (structurePhase stamp).2).2).2).2
      have hd : hasWrapperDiag (wrapperSigCheck recover stamp
          (challengeSigCheck recover stamp (structurePhase stamp).2).1
          (challengeSigCheck recover stamp (structurePhase stamp).2).2).2 := by
        cases hcr : stamp.signals.challengeResult with
        | none =>
          simp only [wrapperSigCheck, hcr, if_pos hlen]
          exact foldWrap_fails_diag recover _ stamp.signatures sig hmem hfail _
        | some cr =>
          simp only [wrapperSigCheck, hcr, if_pos hlen]
          exact foldWrap_fails_diag recover _ stamp.signatures sig hmem hfail _
      rcases hd with h | h
      · exact Or.inl (by
          rwa [signalsPhase_dlookup stamp _ _ (by decide) (by decide) (by decide)
            (by decide)])
      · exact Or.inr (by
          rwa [signalsPhase_dlookup stamp _ _ (by decide) (by decide) (by decide)
            (by decide)])

/-- The concrete stamp with the full challenge result embedded in signals. -/
def stampCR : LocationStamp :=
  { stampA with signals := { signalsA with challengeResult := some crA } }

/-- A recovery capability that always throws. -/
def recErrA : String → String → Except String String := fun _ _ => .error "boom"

/-- C4 witness: a throwing recovery capability on the concrete stamp is caught
and recorded, with the verdict false. -/
theorem verify_captures_signature_failures_wit :
    (verifyWitnessChainStamp recErrA stampCR).signaturesValid = false
    ∧ dlookup (verifyWitnessChainStamp recErrA stampCR).details
        "challengeSignatureError" = some (.str "boom") :=
  (verify_captures_signature_failures recErrA stampCR).2.1 crA "boom" rfl rfl

/-- C5 (confirmed): a stamp carrying neither embedded challenge evidence nor
any wrapper signature is reported signature-invalid, with a `noSignatures`
diagnostic recorded — a stamp with nothing to verify is never accepted. -/
theorem verify_no_signatures_invalid
    (recover : String → String → Except String String) (stamp : LocationStamp)
    (hcr : stamp.signals.challengeResult = none) (hsig : stamp.signatures = []) :
    (verifyWitnessChainStamp recover stamp).signaturesValid = false
    ∧ dlookup (verifyWitnessChainStamp recover stamp).details "noSignatures" =
        some (.bool true) := by
  have hch : challengeSigCheck recover stamp (structurePhase stamp).2 =
      (true, (structurePhase stamp).2) := by
    simp only [challengeSigCheck, hcr]
  have hphase : signaturePhase recover stamp (structurePhase stamp).2 =
      (false, dset (structurePhase stamp).2 "noSignatures" (.bool true)) := by
    unfold signaturePhase
    rw [hch]
    simp [wrapperSigCheck, hcr, hsig]
  constructor
  · show (signaturePhase recover stamp (structurePhase stamp).2).1 = false
    rw [hphase]
  · show dlookup (signalsPhase stamp
      (signaturePhase recover stamp (structurePhase stamp).2).2).2 "noSignatures" =
        some (.bool true)
    rw [signalsPhase_dlookup stamp _ _ (by decide) (by decide) (by decide) (by decide),
      hphase]
    exact dlookup_dset_self _ _ _

/-- C5 witness: the concrete flattened stamp (no embedded challenge result,
empty signature list) under any concrete recovery capability. -/
theorem verify_no_signatures_invalid_wit :
    (verifyWitnessChainStamp recErrA stampA).signaturesValid = false
    ∧ dlookup (verifyWitnessChainStamp recErrA stampA).details "noSignatures" =
        some (.bool true) :=
  verify_no_signatures_invalid recErrA stampA rfl rfl

/-- On a non-coordinate location the coordinate range check is a no-op. -/
theorem coordRangeCheck_noncoord (stamp : LocationStamp) (s : String)
    (hloc : stamp.location = Location.str s) (d : Details) :
    coordRangeCheck stamp d = (true, d) := by
  simp only [coordRangeCheck, hloc]

/-- On a non-coordinate location the signal phase writes only its two
remaining keys. -/
theorem signalsPhase_dlookup_noncoord (stamp : LocationStamp) (s : String)
    (hloc : stamp.location = Location.str s) (d : Details) (k : String)
    (h3 : k ≠ "challengeFailed") (h4 : k ≠ "invalidConsolidatedResult") :
    dlookup (signalsPhase stamp d).2 k = dlookup d k := by
  cases hcons : stamp.signals.consolidatedResult with
  | none =>
    simp only [signalsPhase, hcons, coordRangeCheck_noncoord stamp s hloc d]
    split_ifs <;> try simp only []
    all_goals rw [dlookup_dset_ne _ _ _ _ h3]
  | some c =>
    simp only [signalsPhase, hcons, coordRangeCheck_noncoord stamp s hloc d]
    split_ifs <;> try simp only []
    all_goals
      repeat' first
        | rw [dlookup_dset_ne _ _ _ _ h3]
        | rw [dlookup_dset_ne _ _ _ _ h4]

/-- On a non-coordinate location the signal-consistency verdict is decided by
the consolidated-result check alone. -/
theorem signalsPhase_fst_noncoord (stamp : LocationStamp) (s : String)
    (hloc : stamp.location = Location.str s) (d : Details) :
    (signalsPhase stamp d).1 =
      (match stamp.signals.consolidatedResult with
       | some c => isBoolJs c.KnowLoc
       | none => true) := by
  cases hcons : stamp.signals.consolidatedResult with
  | none => simp only [signalsPhase, hcons, coordRangeCheck_noncoord stamp s hloc d]
  | some c =>
    simp only [signalsPhase, hcons, coordRangeCheck_noncoord stamp s hloc d]
    cases hb : isBoolJs c.KnowLoc with
    | true => simp
    | false => simp

/-- C10 (confirmed): when the stamp's location is present but is not an object
with a `coordinates` member, the verifier performs no latitude/longitude range
check at all: neither coordinate diagnostic is ever recorded and signal
consistency is decided solely by the consolidated-result check, so such a
stamp can pass signal consistency despite carrying no checkable point. -/
theorem verify_skips_noncoord_location
    (recover : String → String → Except String String) (stamp : LocationStamp)
    (h : isCoordObj stamp.location = false) :
    dlookup (verifyWitnessChainStamp recover stamp).details "invalidLatitude" = none
    ∧ dlookup (verifyWitnessChainStamp recover stamp).details "invalidLongitude" = none
    ∧ (verifyWitnessChainStamp recover stamp).signalsConsistent =
        (match stamp.signals.consolidatedResult with
         | some c => isBoolJs c.KnowLoc
         | none => true) := by
  obtain ⟨s, hloc⟩ : ∃ s, stamp.location = Location.str s := by
    cases hl : stamp.location with
    | geo t c => rw [hl] at h; simp [isCoordObj] at h
    | str s2 => exact ⟨s2, rfl⟩
  refine ⟨?_, ?_, ?_⟩
  · show dlookup (signalsPhase stamp
      (signaturePhase recover stamp (structurePhase stamp).2).2).2 "invalidLatitude" =
        none
    rw [signalsPhase_dlookup_noncoord stamp s hloc _ _ (by decide) (by decide),
      signaturePhase_dlookup recover stamp _ _ (by decide) (by decide) (by decide)
        (by decide) (by decide) (by decide) (by decide),
      structurePhase_dlookup_none stamp _ (by decide) (by decide) (by decide)
        (by decide)]
  · show dlookup (signalsPhase stamp
      (signaturePhase recover stamp (structurePhase stamp).2).2).2 "invalidLongitude" =
        none
    rw [signalsPhase_dlookup_noncoord stamp s hloc _ _ (by decide) (by decide),
      signaturePhase_dlookup recover stamp _ _ (by decide) (by decide) (by decide)
        (by decide) (by decide) (by decide) (by decide),
      structurePhase_dlookup_none stamp _ (by decide) (by decide) (by decide)
        (by decide)]
  · exact signalsPhase_fst_noncoord stamp s hloc _

/-- The concrete stamp with a bare string (h3 cell) location. -/
def stampH3 : LocationStamp := { stampA with location := .str "h3-cell" }

/-- C10 witness: the string-located concrete stamp records no coordinate
diagnostics and passes the signal-consistency check. -/
theorem verify_skips_noncoord_location_wit :
    dlookup (verifyWitnessChainStamp recErrA stampH3).details "invalidLatitude" = none
    ∧ (verifyWitnessChainStamp recErrA stampH3).signalsConsistent = true := by
  have h := verify_skips_noncoord_location recErrA stampH3 rfl
  exact ⟨h.1, h.2.2⟩

/-- A wrapper signature whose recovery succeeds but yields the wrong
identity. -/
def wrapperMismatch (recover : String → String → Except String String)
    (message : String) (sig : SignatureRecord) : Prop :=
  ∃ rec, recover message sig.value = .ok rec ∧ rec.toLower ≠ sig.signer.value.toLower

/-- When every signature in the list mismatches, the fold leaves exactly the
last offending signature's (expected, recovered) pair under
`stampSignatureMismatch` — each iteration overwrites the previous pair. -/
theorem foldWrap_last_mismatch (recover : String → String → Except String String)
    (message : String) :
    ∀ (sigs : List SignatureRecord) (lastSig : SignatureRecord),
      sigs.getLast? = some lastSig →
      (∀ sig ∈ sigs, wrapperMismatch recover message sig) →
      ∀ acc : Bool × Details,
        ∃ rec, recover message lastSig.value = .ok rec ∧
          dlookup ((sigs.foldl (checkWrapperSig recover message) acc).2)
            "stampSignatureMismatch" = some (.pair lastSig.signer.value rec) := by
  intro sigs
  induction sigs with
  | nil => intro lastSig h; simp at h
  | cons sig t ih =>
    intro lastSig hlast hall acc
    cases t with
    | nil =>
      obtain rfl : sig = lastSig := by simpa using hlast
      obtain ⟨rec, hok, hne⟩ := hall sig (by simp)
      refine ⟨rec, hok, ?_⟩
      rw [List.foldl_cons, List.foldl_nil]
      simp only [checkWrapperSig, hok]
      rw [if_pos hne]
      exact dlookup_dset_self _ _ _
    | cons s2 t2 =>
      have hlast' : (s2 :: t2).getLast? = some lastSig := by
        rwa [List.getLast?_cons_cons] at hlast
      rw [List.foldl_cons]
      exact ih lastSig hlast' (fun sg hm => hall sg (List.mem_cons_of_mem _ hm)) _

/-- C8 (amended, corrected): keys written by the structure phase are never
removed or overwritten by the later phases; but within the wrapper-signature
loop the diagnostic keys are reused, so when several wrapper signatures fail,
a later offending signature overwrites the recorded (expected, recovered)
pair of an earlier one and only the last offending signature's pair is
present in the returned details. -/
theorem details_amended (recover : String → String → Except String String)
    (stamp : LocationStamp) :
    (∀ (k : String) (v : DetailValue), dlookup (structurePhase stamp).2 k = some v →
      dlookup (verifyWitnessChainStamp recover stamp).details k = some v)
    ∧ (∀ lastSig : SignatureRecord, stamp.signatures.getLast? = some lastSig →
        (∀ sig ∈ stamp.signatures,
          wrapperMismatch recover (stringifyUnsigned stamp.toUnsignedLocationStamp) sig) →
        ∃ rec, recover (stringifyUnsigned stamp.toUnsignedLocationStamp) lastSig.value =
            .ok rec ∧
          dlookup (verifyWitnessChainStamp recover stamp).details
            "stampSignatureMismatch" = some (.pair lastSig.signer.value rec)) := by
  constructor
  · intro k v h
    rcases structurePhase_keys stamp k v h with hk | hk | hk | hk <;> subst hk <;>
      · show dlookup (signalsPhase stamp
          (signaturePhase recover stamp (structurePhase stamp).2).2).2 _ = some v
        rw [signalsPhase_dlookup stamp _ _ (by decide) (by decide) (by decide)
            (by decide),
          signaturePhase_dlookup recover stamp _ _ (by decide) (by decide) (by decide)
            (by decide) (by decide) (by decide) (by decide)]
        exact h
  · intro lastSig hlast hall
    have hnil : stamp.signatures ≠ [] := by
      intro hn; rw [hn] at hlast; simp at hlast
    have hlen : 0 < stamp.signatures.length := List.length_pos.mpr hnil
    obtain ⟨rec, hok, hlook⟩ := foldWrap_last_mismatch recover
      (stringifyUnsigned stamp.toUnsignedLocationStamp) stamp.signatures lastSig hlast
      hall (challengeSigCheck recover stamp (structurePhase stamp).2)
    refine ⟨rec, hok, ?_⟩
    show dlookup (signalsPhase stamp
      (wrapperSigCheck recover stamp
        (challengeSigCheck recover stamp (structurePhase stamp).2).1
        (challengeSigCheck recover stamp (structurePhase stamp).2).2).2).2
      "stampSignatureMismatch" = some (.pair lastSig.signer.value rec)
    rw [signalsPhase_dlookup stamp _ _ (by decide) (by decide) (by decide) (by decide)]
    simp only [wrapperSigCheck, if_pos hlen]
    exact hlook

/-- First wrapper signature of the overwrite counterexample. -/
def sigB1 : SignatureRecord :=
  { signer := { scheme := "eth-address", value := "0xA" }, algorithm := "secp256k1",
    value := "v1", timestamp := 1 }

/-- Second wrapper signature of the overwrite counterexample. -/
def sigB2 : SignatureRecord :=
  { signer := { scheme := "eth-address", value := "0xB" }, algorithm := "secp256k1",
    value := "v2", timestamp := 2 }

/-- A stamp with two wrapper signatures (string location, so that no
coordinate arithmetic is involved). -/
def stampB2 : LocationStamp :=
  { stampA with location := .str "h3-cell", signatures := [sigB1, sigB2] }

/-- A recovery capability that throws a distinct message per signature. -/
def recC : String → String → Except String String := fun _ v => .error ("bad " ++ v)

/-- C8 counterexample: both wrapper signatures fail verification, but the
`stampSignatureError` diagnostic written for the first is overwritten by the
second — the final details hold only the last offending signature's
diagnostic, so the details map is not additive-only. -/
theorem details_overwrite_cx :
    wrapperFails recC (stringifyUnsigned stampB2.toUnsignedLocationStamp) sigB1
    ∧ wrapperFails recC (stringifyUnsigned stampB2.toUnsignedLocationStamp) sigB2
    ∧ dlookup (verifyWitnessChainStamp recC stampB2).details "stampSignatureError" =
        some (.str "bad v2")
    ∧ ¬ ("stampSignatureError", DetailValue.str "bad v1") ∈
        (verifyWitnessChainStamp recC stampB2).details := by
  refine ⟨Or.inr ⟨"bad v1", rfl⟩, Or.inr ⟨"bad v2", rfl⟩, ?_, ?_⟩ <;> decide

/-- The concrete stamp with a wrong lp version. -/
def stampBadVer : LocationStamp := { stampA with lpVersion := "0.3" }

/-- C8 amended witness: the structure-phase diagnostic written for the wrong
lp version survives to the final details unchanged. -/
theorem details_amended_wit :
    dlookup (verifyWitnessChainStamp recErrA stampBadVer).details "lpVersionError" =
      some (.str "Expected 0.2, got 0.3") :=
  (details_amended recErrA stampBadVer).1 "lpVersionError"
    (.str "Expected 0.2, got 0.3") (by decide)
